import Mathlib

/-!
Verification development for src/gtk/gtkeventcontrollerkey.c, the key event
controller. The controller classifies incoming events, optionally routes key
events through an input method context, tracks pressed keys in a hash table
created with g_hash_table_new (NULL, NULL), and emits signals to observers.

The embedding below translates the C functions into pure Lean functions.
Signal emission is modelled by returning the list of emitted signals together
with the boolean results an emission collects from connected handlers, which
are supplied as function-valued parameters (structure Observers).
-/

/-- Event types distinguished by gtk_event_controller_key_handle_event via
gdk_event_get_event_type: GDK_KEY_PRESS, GDK_KEY_RELEASE, GDK_FOCUS_CHANGE,
and anything else. -/
inductive GdkEventType where
  | keyPress
  | keyRelease
  | focusChange
  | otherEvent
deriving DecidableEq

/-- Model of a GdkEvent, one field per accessor the file calls. The accessors
whose boolean result the file checks (gdk_event_get_focus_in,
gdk_event_get_state, gdk_event_get_key_is_modifier) are Option valued, with
none meaning the accessor reported failure. gdk_event_get_keycode,
gdk_event_get_keyval and gdk_event_get_key_group have their boolean result
ignored by the file, so the value written to the out parameter is modelled as
a total field. -/
structure GdkEvent where
  eventType : GdkEventType
  focusGained : Option Bool
  state : Option Nat
  isModifierKey : Option Bool
  keycode : Nat
  keyval : Nat
  group : Nat
deriving DecidableEq

/-- The six signals of GtkEventControllerKey, with the arguments each
g_signal_emit call passes. -/
inductive Signal where
  | keyPressed (keyval keycode state : Nat)
  | keyReleased (keyval keycode state : Nat)
  | modifiers (state : Nat)
  | imUpdate
  | focusIn
  | focusOut
deriving DecidableEq

/-- External behaviour observable during one handle_event call: the result of
gtk_im_context_filter_keypress on the event, and the boolean results the
KEY_PRESSED and MODIFIERS emissions collect from connected handlers (an
emission with no connected handler yields FALSE). keyPressedHandler receives
keyval, keycode and state, as in the g_signal_emit call on lines 140-141;
modifiersHandler receives the state, as on line 124. -/
structure Observers where
  imFilterKeypress : GdkEvent → Bool
  keyPressedHandler : Nat → Nat → Nat → Bool
  modifiersHandler : Nat → Bool

/-- The mutable fields of struct _GtkEventControllerKey. pressed_keys is a
GHashTable created with g_hash_table_new (NULL, NULL) and used as a set of
keyval values via g_hash_table_add; it is modelled as a Finset Nat.
im_context presence is a Bool, and the behaviour of the attached context
lives in Observers. -/
structure ControllerState where
  imContext : Bool
  pressedKeys : Finset Nat
  currentEvent : Option GdkEvent
deriving DecidableEq

/-- Result of one call to the handler: the gboolean return value, the
controller state after the call, and the signals emitted during the call in
order. -/
structure HandleResult where
  handled : Bool
  controller : ControllerState
  emitted : List Signal
deriving DecidableEq

/-- Lines 135-154 of the source: keycode and keyval are read and the
KEY_PRESSED or KEY_RELEASED branch runs. preEmitted carries the MODIFIERS
signal already emitted when the modifier branch fell through with
handled == FALSE. On press, the KEY_PRESSED emission result decides the
return value and whether g_hash_table_add inserts keyval. On release, the
KEY_RELEASED signal is emitted unconditionally; the return value is
g_hash_table_lookup (pressed_keys, GUINT_TO_POINTER (keyval)) != NULL.
Because the table stores each key with itself as value and
GUINT_TO_POINTER (0) is NULL, that test is membership AND keyval ≠ 0,
while g_hash_table_remove erases the entry by key, including a 0 entry.
Both branches end by clearing current_event (line 156). -/
def keyBranch (obs : Observers) (key : ControllerState) (event : GdkEvent)
    (state : Nat) (preEmitted : List Signal) : HandleResult :=
  if event.eventType = GdkEventType.keyPress then
    { handled := obs.keyPressedHandler event.keyval event.keycode state,
      controller :=
        { key with
          pressedKeys :=
            if obs.keyPressedHandler event.keyval event.keycode state then
              insert event.keyval key.pressedKeys
            else
              key.pressedKeys,
          currentEvent := none },
      emitted := preEmitted ++ [Signal.keyPressed event.keyval event.keycode state] }
  else if event.eventType = GdkEventType.keyRelease then
    { handled := decide (event.keyval ∈ key.pressedKeys) && decide (event.keyval ≠ 0),
      controller :=
        { key with
          pressedKeys := key.pressedKeys.erase event.keyval,
          currentEvent := none },
      emitted := preEmitted ++ [Signal.keyReleased event.keyval event.keycode state] }
  else
    { handled := false,
      controller := { key with currentEvent := none },
      emitted := preEmitted }

/-- gtk_event_controller_key_handle_event (lines 82-159). Control flow in
source order: the GDK_FOCUS_CHANGE branch (lines 93-103), the early return
for non key events (lines 105-106), the input method filter (lines 108-113),
the gdk_event_get_state / gdk_event_get_key_is_modifier reads whose failure
returns FALSE (lines 115-117), the assignment of current_event (line 119),
the modifier branch (lines 121-133) which on press emits MODIFIERS and on
release forces handled = TRUE, returning early when handled, and finally the
key press/release branch (keyBranch). -/
def gtk_event_controller_key_handle_event (obs : Observers)
    (key : ControllerState) (event : GdkEvent) : HandleResult :=
  if event.eventType = GdkEventType.focusChange then
    { handled := false,
      controller := key,
      emitted :=
        if event.focusGained = some true then [Signal.focusIn] else [Signal.focusOut] }
  else if event.eventType ≠ GdkEventType.keyPress ∧
          event.eventType ≠ GdkEventType.keyRelease then
    { handled := false, controller := key, emitted := [] }
  else if key.imContext && obs.imFilterKeypress event then
    { handled := true, controller := key, emitted := [Signal.imUpdate] }
  else
    match event.state, event.isModifierKey with
    | some state, some is_modifier =>
        if is_modifier then
          if event.eventType = GdkEventType.keyPress then
            if obs.modifiersHandler state then
              { handled := true,
                controller := { key with currentEvent := none },
                emitted := [Signal.modifiers state] }
            else
              keyBranch obs { key with currentEvent := some event } event state
                [Signal.modifiers state]
          else
            { handled := true,
              controller := { key with currentEvent := none },
              emitted := [] }
        else
          keyBranch obs { key with currentEvent := some event } event state []
    | _, _ => { handled := false, controller := key, emitted := [] }

/-- gtk_event_controller_key_init (lines 270-274): a fresh controller has an
empty pressed_keys table; im_context and current_event are zero initialised.
startState generalises over whether gtk_event_controller_key_set_im_context
has attached an input method context before the trace starts. -/
def startState (im : Bool) : ControllerState :=
  { imContext := im, pressedKeys := ∅, currentEvent := none }

/-- The three dispatch phases gtk_event_controller_key_forward runs through
gtk_widget_run_controllers. -/
inductive GtkPhase where
  | capture
  | target
  | bubble
deriving DecidableEq

/-- Model of the target widget of gtk_event_controller_key_forward: whether
it is realized, and what gtk_widget_run_controllers reports for the retained
event in each phase. -/
structure GtkWidget where
  realized : Bool
  runControllers : GdkEvent → GtkPhase → Bool

/-- gtk_widget_realize. -/
def gtk_widget_realize (w : GtkWidget) : GtkWidget :=
  { w with realized := true }

/-- Result of gtk_event_controller_key_forward: the gboolean return value,
the widget afterwards, and the phases actually dispatched, in order. -/
structure ForwardResult where
  handled : Bool
  widget : GtkWidget
  phasesRun : List GtkPhase

/-- gtk_event_controller_key_forward (lines 335-357). The precondition check
on current_event returns FALSE before touching the widget; otherwise the
widget is realized if needed and the retained event is dispatched in capture,
target, bubble order, stopping at the first phase that returns TRUE. -/
def gtk_event_controller_key_forward (controller : ControllerState)
    (widget : GtkWidget) : ForwardResult :=
  match controller.currentEvent with
  | none => { handled := false, widget := widget, phasesRun := [] }
  | some ev =>
      let w := if widget.realized then widget else gtk_widget_realize widget
      if w.runControllers ev GtkPhase.capture then
        { handled := true, widget := w, phasesRun := [GtkPhase.capture] }
      else if w.runControllers ev GtkPhase.target then
        { handled := true, widget := w,
          phasesRun := [GtkPhase.capture, GtkPhase.target] }
      else if w.runControllers ev GtkPhase.bubble then
        { handled := true, widget := w,
          phasesRun := [GtkPhase.capture, GtkPhase.target, GtkPhase.bubble] }
      else
        { handled := false, widget := w,
          phasesRun := [GtkPhase.capture, GtkPhase.target, GtkPhase.bubble] }

/-- gtk_event_controller_key_get_group (lines 368-379). The precondition
check on current_event returns FALSE, which as a guint is 0; otherwise
gdk_event_get_key_group writes the group of the retained event. -/
def gtk_event_controller_key_get_group (controller : ControllerState) : Nat :=
  match controller.currentEvent with
  | none => 0
  | some ev => ev.group

/-- One handle_event call of a trace: the external behaviour visible to the
call (which may differ between calls) and the incoming event. -/
abbrev Step := Observers × GdkEvent

/-- Controller state after a sequence of completed handle_event calls. -/
def runTrace (s : ControllerState) : List Step → ControllerState
  | [] => s
  | st :: rest =>
      runTrace (gtk_event_controller_key_handle_event st.1 s st.2).controller rest

/-- The same sequence of calls, recording each step together with its full
result (return value, state afterwards, emitted signals). -/
def runLog (s : ControllerState) : List Step → List (Step × HandleResult)
  | [] => []
  | st :: rest =>
      let r := gtk_event_controller_key_handle_event st.1 s st.2
      (st, r) :: runLog r.controller rest

/-- Signals through which an observer reports a press of keyval k as handled:
a KEY_PRESSED emission for k, or a MODIFIERS emission. -/
def isObserverVoteSignal (k : Nat) : Signal → Bool
  | Signal.keyPressed kv _ _ => kv == k
  | Signal.modifiers _ => true
  | _ => false

/-- A KEY_PRESSED emission for keyval k. -/
def isKeyPressedSignal (k : Nat) : Signal → Bool
  | Signal.keyPressed kv _ _ => kv == k
  | _ => false

/-- A KEY_RELEASED emission. -/
def isKeyReleasedSignal : Signal → Bool
  | Signal.keyReleased _ _ _ => true
  | _ => false

/-- A logged call in which a key-press event of keyval k was reported as
handled (consumed) by an observer: the event is a key press of k, the call
returned TRUE, and the consumption was reported through an observer
notification (KEY_PRESSED or MODIFIERS), as opposed to the input method
filter. -/
def observerHandledPress (e : Step × HandleResult) (k : Nat) : Prop :=
  e.1.2.eventType = GdkEventType.keyPress ∧ e.1.2.keyval = k ∧
    e.2.handled = true ∧ ∃ sg ∈ e.2.emitted, isObserverVoteSignal k sg = true

/-- A key-release event of keyval k, of any shape. -/
def isReleaseOf (ev : GdkEvent) (k : Nat) : Prop :=
  ev.eventType = GdkEventType.keyRelease ∧ ev.keyval = k

/-- A logged call in which a key-press of keyval k was reported consumed
through its KEY_PRESSED notification: exactly the calls on which line 143
adds k to pressed_keys. -/
def pressConsumedViaKeyPressed (e : Step × HandleResult) (k : Nat) : Prop :=
  e.1.2.eventType = GdkEventType.keyPress ∧ e.1.2.keyval = k ∧
    e.2.handled = true ∧ ∃ sg ∈ e.2.emitted, isKeyPressedSignal k sg = true

/-- A logged call in which a key-release of keyval k reached the release
branch (lines 145-151), the only place that removes k from pressed_keys:
the event is a key release of k and the call emitted KEY_RELEASED. -/
def releaseReachedBranch (e : Step × HandleResult) (k : Nat) : Prop :=
  e.1.2.eventType = GdkEventType.keyRelease ∧ e.1.2.keyval = k ∧
    ∃ sg ∈ e.2.emitted, isKeyReleasedSignal sg = true

instance (e : Step × HandleResult) (k : Nat) :
    Decidable (observerHandledPress e k) := by
  unfold observerHandledPress; infer_instance

instance (ev : GdkEvent) (k : Nat) : Decidable (isReleaseOf ev k) := by
  unfold isReleaseOf; infer_instance

instance (e : Step × HandleResult) (k : Nat) :
    Decidable (pressConsumedViaKeyPressed e k) := by
  unfold pressConsumedViaKeyPressed; infer_instance

instance (e : Step × HandleResult) (k : Nat) :
    Decidable (releaseReachedBranch e k) := by
  unfold releaseReachedBranch; infer_instance

/-- Claim C1 as stated, at one key value k: after the trace, k is in
pressed_keys exactly when some call handled a press of k through an observer
and no later call processed a key-release of k. -/
def claimC1At (im : Bool) (steps : List Step) (k : Nat) : Prop :=
  k ∈ (runTrace (startState im) steps).pressedKeys ↔
    ∃ i : Fin (runLog (startState im) steps).length,
      observerHandledPress ((runLog (startState im) steps).get i) k ∧
        ∀ j : Fin (runLog (startState im) steps).length,
          i < j → ¬ isReleaseOf ((runLog (startState im) steps).get j).1.2 k

instance (im : Bool) (steps : List Step) (k : Nat) : Decidable (claimC1At im steps k) := by
  unfold claimC1At; infer_instance

/-- Concrete observer set: no input method filtering, every KEY_PRESSED
emission reports handled, MODIFIERS emissions report unhandled (as when no
handler is connected to the modifiers signal). -/
def obsPressTrue : Observers :=
  { imFilterKeypress := fun _ => false,
    keyPressedHandler := fun _ _ _ => true,
    modifiersHandler := fun _ => false }

/-- Concrete observer set reporting nothing handled anywhere. -/
def obsAllFalse : Observers :=
  { imFilterKeypress := fun _ => false,
    keyPressedHandler := fun _ _ _ => false,
    modifiersHandler := fun _ => false }

/-- Concrete observer set whose input method context filters every event. -/
def obsIMTrue : Observers :=
  { imFilterKeypress := fun _ => true,
    keyPressedHandler := fun _ _ _ => false,
    modifiersHandler := fun _ => false }

/-- A well-formed key event with readable state 0, the given type, keyval and
modifier classification, keycode 38. -/
def mkKeyEvent (t : GdkEventType) (kv : Nat) (m : Bool) : GdkEvent :=
  { eventType := t, focusGained := none, state := some 0,
    isModifierKey := some m, keycode := 38, keyval := kv, group := 0 }

/-- A key press whose gdk_event_get_state accessor fails. -/
def evStateFail : GdkEvent :=
  { eventType := GdkEventType.keyPress, focusGained := none, state := none,
    isModifierKey := some false, keycode := 38, keyval := 65, group := 0 }

/-- A focus change event with the given gdk_event_get_focus_in outcome. -/
def mkFocusEvent (g : Option Bool) : GdkEvent :=
  { eventType := GdkEventType.focusChange, focusGained := g, state := none,
    isModifierKey := none, keycode := 0, keyval := 0, group := 0 }

/-- A key event retained as the transient current event, with group 3. -/
def evInFlight : GdkEvent :=
  { eventType := GdkEventType.keyPress, focusGained := none,
    state := some 0, isModifierKey := some false, keycode := 38,
    keyval := 65, group := 3 }

/-- A controller in the middle of a handle_event call: current_event holds
evInFlight. -/
def ctrlWithEvent : ControllerState :=
  { imContext := false, pressedKeys := ∅, currentEvent := some evInFlight }

/-- An unrealized widget whose controllers consume only in the target
phase. -/
def widgetTargetOnly : GtkWidget :=
  { realized := false,
    runControllers := fun _ p => decide (p = GtkPhase.target) }

/-! ## General lemmas about the handler and traces -/

theorem mem_pressedKeys_handle (st : Step) (s : ControllerState) (k : Nat) :
    k ∈ (gtk_event_controller_key_handle_event st.1 s st.2).controller.pressedKeys ↔
      pressConsumedViaKeyPressed
          (st, gtk_event_controller_key_handle_event st.1 s st.2) k ∨
        (k ∈ s.pressedKeys ∧
          ¬ releaseReachedBranch
              (st, gtk_event_controller_key_handle_event st.1 s st.2) k) := by
  obtain ⟨obs, ev⟩ := st
  unfold gtk_event_controller_key_handle_event keyBranch
  repeat' split
  all_goals
    simp_all [pressConsumedViaKeyPressed, releaseReachedBranch,
      isKeyPressedSignal, isKeyReleasedSignal, Finset.mem_insert, Finset.mem_erase]
  all_goals tauto

theorem fin_get_cons_all {α : Type} (x : α) (l : List α) (R : α → Prop) :
    (∀ j : Fin (x :: l).length, ¬ R ((x :: l).get j)) ↔
      ¬ R x ∧ ∀ j : Fin l.length, ¬ R (l.get j) := by
  constructor
  · intro h
    refine ⟨by simpa using h ⟨0, Nat.succ_pos _⟩, fun j => by simpa using h j.succ⟩
  · intro h j
    rcases Fin.eq_zero_or_eq_succ j with rfl | ⟨j', rfl⟩
    · simpa using h.1
    · simpa using h.2 j'

theorem fin_get_cons_split {α : Type} (x : α) (l : List α) (P R : α → Prop) :
    (∃ i : Fin (x :: l).length, P ((x :: l).get i) ∧
        ∀ j : Fin (x :: l).length, i < j → ¬ R ((x :: l).get j)) ↔
      (P x ∧ ∀ j : Fin l.length, ¬ R (l.get j)) ∨
        ∃ i : Fin l.length, P (l.get i) ∧
          ∀ j : Fin l.length, i < j → ¬ R (l.get j) := by
  constructor
  · rintro ⟨i, hP, hR⟩
    rcases Fin.eq_zero_or_eq_succ i with rfl | ⟨i', rfl⟩
    · left
      refine ⟨by simpa using hP, fun j => ?_⟩
      have := hR j.succ (Fin.succ_pos j)
      simpa using this
    · right
      refine ⟨i', by simpa using hP, fun j hj => ?_⟩
      have := hR j.succ (by rwa [Fin.succ_lt_succ_iff])
      simpa using this
  · rintro (⟨hP, hR⟩ | ⟨i, hP, hR⟩)
    · refine ⟨⟨0, Nat.succ_pos _⟩, by simpa using hP, fun j hj => ?_⟩
      rcases Fin.eq_zero_or_eq_succ j with rfl | ⟨j', rfl⟩
      · exact absurd hj (lt_irrefl _)
      · simpa using hR j'
    · refine ⟨i.succ, by simpa using hP, fun j hj => ?_⟩
      rcases Fin.eq_zero_or_eq_succ j with rfl | ⟨j', rfl⟩
      · exact absurd hj (Fin.not_lt_zero _)
      · simpa using hR j' (Fin.succ_lt_succ_iff.mp hj)

theorem log_cons_split (x : Step × HandleResult) (l : List (Step × HandleResult)) (k : Nat) :
    (∃ i : Fin (x :: l).length, pressConsumedViaKeyPressed ((x :: l).get i) k ∧
        ∀ j : Fin (x :: l).length, i < j → ¬ releaseReachedBranch ((x :: l).get j) k) ↔
      (pressConsumedViaKeyPressed x k ∧
          ∀ j : Fin l.length, ¬ releaseReachedBranch (l.get j) k) ∨
        ∃ i : Fin l.length, pressConsumedViaKeyPressed (l.get i) k ∧
          ∀ j : Fin l.length, i < j → ¬ releaseReachedBranch (l.get j) k :=
  fin_get_cons_split x l (fun e => pressConsumedViaKeyPressed e k)
    (fun e => releaseReachedBranch e k)

theorem log_cons_all (x : Step × HandleResult) (l : List (Step × HandleResult)) (k : Nat) :
    (∀ j : Fin (x :: l).length, ¬ releaseReachedBranch ((x :: l).get j) k) ↔
      ¬ releaseReachedBranch x k ∧
        ∀ j : Fin l.length, ¬ releaseReachedBranch (l.get j) k :=
  fin_get_cons_all x l (fun e => releaseReachedBranch e k)

theorem handle_cons_shuffle (A B M P R : Prop) :
    (A ∨ ((P ∨ (M ∧ ¬ R)) ∧ B)) ↔ (((P ∧ B) ∨ A) ∨ (M ∧ (¬ R ∧ B))) := by
  tauto

theorem mem_runTrace_iff (k : Nat) (steps : List Step) :
    ∀ s : ControllerState,
      k ∈ (runTrace s steps).pressedKeys ↔
        (∃ i : Fin (runLog s steps).length,
            pressConsumedViaKeyPressed ((runLog s steps).get i) k ∧
              ∀ j : Fin (runLog s steps).length,
                i < j → ¬ releaseReachedBranch ((runLog s steps).get j) k) ∨
          (k ∈ s.pressedKeys ∧
            ∀ j : Fin (runLog s steps).length,
              ¬ releaseReachedBranch ((runLog s steps).get j) k) := by
  induction steps with
  | nil =>
      intro s
      simp [runTrace, runLog]
  | cons st rest ih =>
      intro s
      have hstep := mem_pressedKeys_handle st s k
      simp only [runTrace, runLog]
      rw [ih, log_cons_split, log_cons_all, hstep]
      exact handle_cons_shuffle _ _ _ _ _

/-- A press or release event with readable state and modifier classification
that an attached input method does not filter reaches the corresponding
signal branch; this lemma computes the full result for a non modifier
press. -/
theorem handle_press_eq (obs : Observers) (s : ControllerState) (ev : GdkEvent)
    (st : Nat) (ht : ev.eventType = GdkEventType.keyPress)
    (hs : ev.state = some st) (hm : ev.isModifierKey = some false)
    (him : (s.imContext && obs.imFilterKeypress ev) = false) :
    gtk_event_controller_key_handle_event obs s ev =
      { handled := obs.keyPressedHandler ev.keyval ev.keycode st,
        controller :=
          { s with
            pressedKeys :=
              if obs.keyPressedHandler ev.keyval ev.keycode st then
                insert ev.keyval s.pressedKeys
              else
                s.pressedKeys,
            currentEvent := none },
        emitted := [Signal.keyPressed ev.keyval ev.keycode st] } := by
  simp [gtk_event_controller_key_handle_event, keyBranch, ht, hs, hm, him]

/-- Companion to handle_press_eq for a non modifier release: the KEY_RELEASED
signal is emitted, the return value is the hash table lookup test, and the
keyval entry is removed. -/
theorem handle_release_eq (obs : Observers) (s : ControllerState) (ev : GdkEvent)
    (st : Nat) (ht : ev.eventType = GdkEventType.keyRelease)
    (hs : ev.state = some st) (hm : ev.isModifierKey = some false)
    (him : (s.imContext && obs.imFilterKeypress ev) = false) :
    gtk_event_controller_key_handle_event obs s ev =
      { handled := decide (ev.keyval ∈ s.pressedKeys) && decide (ev.keyval ≠ 0),
        controller :=
          { s with
            pressedKeys := s.pressedKeys.erase ev.keyval,
            currentEvent := none },
        emitted := [Signal.keyReleased ev.keyval ev.keycode st] } := by
  simp [gtk_event_controller_key_handle_event, keyBranch, ht, hs, hm, him]

/-! ## Claim theorems -/

/-- Claim C5: for every key-press or key-release event, if an input method
context is attached and its filter reports that it consumed the event,
handle_event emits only IM_UPDATE, returns TRUE, and performs no further
processing: the controller state, in particular pressed_keys, is
unchanged. -/
theorem im_filter_consumes_event (obs : Observers) (s : ControllerState)
    (ev : GdkEvent)
    (ht : ev.eventType = GdkEventType.keyPress ∨
      ev.eventType = GdkEventType.keyRelease)
    (him : s.imContext = true) (hf : obs.imFilterKeypress ev = true) :
    gtk_event_controller_key_handle_event obs s ev =
      { handled := true, controller := s, emitted := [Signal.imUpdate] } := by
  rcases ht with h | h <;>
    simp [gtk_event_controller_key_handle_event, h, him, hf]

/-- Witness for im_filter_consumes_event at a concrete filtered press. -/
theorem im_filter_consumes_event_witness :
    gtk_event_controller_key_handle_event obsIMTrue (startState true)
        (mkKeyEvent GdkEventType.keyPress 65 false) =
      { handled := true, controller := startState true,
        emitted := [Signal.imUpdate] } :=
  im_filter_consumes_event obsIMTrue (startState true)
    (mkKeyEvent GdkEventType.keyPress 65 false) (Or.inl rfl) rfl rfl

/-- Claim C6: a focus change event always returns not consumed, exactly one
of FOCUS_IN / FOCUS_OUT is emitted, and FOCUS_IN is emitted exactly when
gdk_event_get_focus_in succeeds and reports focus gained. -/
theorem focus_change_event (obs : Observers) (s : ControllerState)
    (ev : GdkEvent) (h : ev.eventType = GdkEventType.focusChange) :
    (gtk_event_controller_key_handle_event obs s ev).handled = false ∧
      ((gtk_event_controller_key_handle_event obs s ev).emitted =
          [Signal.focusIn] ∨
        (gtk_event_controller_key_handle_event obs s ev).emitted =
          [Signal.focusOut]) ∧
      ((gtk_event_controller_key_handle_event obs s ev).emitted =
          [Signal.focusIn] ↔ ev.focusGained = some true) := by
  by_cases hg : ev.focusGained = some true <;>
    simp [gtk_event_controller_key_handle_event, h, hg]

/-- Witness for focus_change_event at a concrete focus-in event. -/
theorem focus_change_event_witness :
    (gtk_event_controller_key_handle_event obsAllFalse (startState false)
        (mkFocusEvent (some true))).handled = false ∧
      ((gtk_event_controller_key_handle_event obsAllFalse (startState false)
            (mkFocusEvent (some true))).emitted = [Signal.focusIn] ∨
        (gtk_event_controller_key_handle_event obsAllFalse (startState false)
            (mkFocusEvent (some true))).emitted = [Signal.focusOut]) ∧
      ((gtk_event_controller_key_handle_event obsAllFalse (startState false)
            (mkFocusEvent (some true))).emitted = [Signal.focusIn] ↔
        (mkFocusEvent (some true)).focusGained = some true) :=
  focus_change_event obsAllFalse (startState false) (mkFocusEvent (some true)) rfl

/-- Claim C8: with no event in flight (current_event is NULL), the
precondition checks make gtk_event_controller_key_forward return FALSE
without realizing the widget or dispatching any phase, and
gtk_event_controller_key_get_group return 0 without reading any event. -/
theorem no_event_in_flight_guards (c : ControllerState) (w : GtkWidget)
    (h : c.currentEvent = none) :
    gtk_event_controller_key_forward c w =
        { handled := false, widget := w, phasesRun := [] } ∧
      gtk_event_controller_key_get_group c = 0 := by
  unfold gtk_event_controller_key_forward gtk_event_controller_key_get_group
  rw [h]
  exact ⟨rfl, rfl⟩

/-- Witness for no_event_in_flight_guards on a fresh controller. -/
theorem no_event_in_flight_guards_witness :
    gtk_event_controller_key_forward (startState false) widgetTargetOnly =
        { handled := false, widget := widgetTargetOnly, phasesRun := [] } ∧
      gtk_event_controller_key_get_group (startState false) = 0 :=
  no_event_in_flight_guards (startState false) widgetTargetOnly rfl

/-- Claim C9: with an event in flight, gtk_event_controller_key_forward first
ensures the target is realized, then dispatches the retained event in
capture, target, bubble order, returning TRUE at the first phase that
reports consumption, not running later phases, and FALSE when no phase
consumes. -/
theorem forward_dispatch_phases (c : ControllerState) (w : GtkWidget)
    (ev : GdkEvent) (h : c.currentEvent = some ev) :
    (gtk_event_controller_key_forward c w).widget.realized = true ∧
      ((gtk_event_controller_key_forward c w).handled = true ↔
        (w.runControllers ev GtkPhase.capture = true ∨
          w.runControllers ev GtkPhase.target = true ∨
          w.runControllers ev GtkPhase.bubble = true)) ∧
      (w.runControllers ev GtkPhase.capture = true →
        (gtk_event_controller_key_forward c w).phasesRun = [GtkPhase.capture]) ∧
      (w.runControllers ev GtkPhase.capture = false →
        w.runControllers ev GtkPhase.target = true →
        (gtk_event_controller_key_forward c w).phasesRun =
          [GtkPhase.capture, GtkPhase.target]) ∧
      (w.runControllers ev GtkPhase.capture = false →
        w.runControllers ev GtkPhase.target = false →
        (gtk_event_controller_key_forward c w).phasesRun =
          [GtkPhase.capture, GtkPhase.target, GtkPhase.bubble]) := by
  unfold gtk_event_controller_key_forward gtk_widget_realize
  rw [h]
  by_cases hr : w.realized <;>
    by_cases hc : w.runControllers ev GtkPhase.capture <;>
      by_cases htg : w.runControllers ev GtkPhase.target <;>
        by_cases hb : w.runControllers ev GtkPhase.bubble <;>
          simp [hr, hc, htg, hb]

/-- Witness for forward_dispatch_phases: an unrealized widget consuming in
the target phase yields TRUE after running capture and target only. -/
theorem forward_dispatch_phases_witness :
    (gtk_event_controller_key_forward ctrlWithEvent widgetTargetOnly).widget.realized =
        true ∧
      (gtk_event_controller_key_forward ctrlWithEvent widgetTargetOnly).phasesRun =
        [GtkPhase.capture, GtkPhase.target] := by
  have h := forward_dispatch_phases ctrlWithEvent widgetTargetOnly evInFlight rfl
  exact ⟨h.1, h.2.2.2.1 (by decide) (by decide)⟩

/-- Counterexample to claim C2 as stated: a pure modifier press that is not
filtered by an input method does emit KEY_PRESSED when the MODIFIERS
emission reports the press unhandled — processing falls through to the
ordinary press path instead of stopping at the modifiers notification. -/
theorem claimC2_counterexample :
    (mkKeyEvent GdkEventType.keyPress 5 true).isModifierKey = some true ∧
      (startState false).imContext = false ∧
      Signal.keyPressed 5 38 0 ∈
        (gtk_event_controller_key_handle_event obsPressTrue (startState false)
            (mkKeyEvent GdkEventType.keyPress 5 true)).emitted := by
  decide

/-- Claim C2 (amended): for a key event with readable state st that is
classified as a pure modifier and not filtered by an attached input method:
on release, nothing is emitted and the call returns TRUE; on press, the
MODIFIERS notification is emitted with the new state and, if its observer
reports it consumed, nothing else is emitted and the call returns TRUE; if
the observer does not consume it, the call falls through to ordinary press
processing, additionally emitting KEY_PRESSED and returning that
notification's result. -/
theorem modifier_key_event (obs : Observers) (s : ControllerState)
    (ev : GdkEvent) (st : Nat) (hs : ev.state = some st)
    (hm : ev.isModifierKey = some true)
    (him : (s.imContext && obs.imFilterKeypress ev) = false) :
    (ev.eventType = GdkEventType.keyRelease →
      gtk_event_controller_key_handle_event obs s ev =
        { handled := true, controller := { s with currentEvent := none },
          emitted := [] }) ∧
      (ev.eventType = GdkEventType.keyPress → obs.modifiersHandler st = true →
        gtk_event_controller_key_handle_event obs s ev =
          { handled := true, controller := { s with currentEvent := none },
            emitted := [Signal.modifiers st] }) ∧
      (ev.eventType = GdkEventType.keyPress → obs.modifiersHandler st = false →
        (gtk_event_controller_key_handle_event obs s ev).emitted =
            [Signal.modifiers st,
              Signal.keyPressed ev.keyval ev.keycode st] ∧
          (gtk_event_controller_key_handle_event obs s ev).handled =
            obs.keyPressedHandler ev.keyval ev.keycode st) := by
  refine ⟨fun ht => ?_, fun ht hmod => ?_, fun ht hmod => ?_⟩
  · simp [gtk_event_controller_key_handle_event, keyBranch, hs, hm, him, ht]
  · simp [gtk_event_controller_key_handle_event, keyBranch, hs, hm, him, ht,
      hmod]
  · simp [gtk_event_controller_key_handle_event, keyBranch, hs, hm, him, ht,
      hmod]

/-- Witness for modifier_key_event at a concrete modifier release. -/
theorem modifier_key_event_witness :
    gtk_event_controller_key_handle_event obsAllFalse (startState false)
        (mkKeyEvent GdkEventType.keyRelease 5 true) =
      { handled := true,
        controller := { startState false with currentEvent := none },
        emitted := [] } :=
  (modifier_key_event obsAllFalse (startState false)
      (mkKeyEvent GdkEventType.keyRelease 5 true) 0 rfl rfl rfl).1 rfl

/-- Counterexample to claim C4 as stated: a key release of a pure modifier
key with the pressed-key set empty returns TRUE (line 126 forces handled =
TRUE for modifier releases), although no prior press of that key was
consumed. -/
theorem claimC4_counterexample :
    (startState false).pressedKeys = ∅ ∧
      (gtk_event_controller_key_handle_event obsAllFalse (startState false)
          (mkKeyEvent GdkEventType.keyRelease 5 true)).handled = true := by
  decide

/-- Claim C4 (amended): a key release of keyval k that reaches the release
branch — readable state, not classified as a modifier, not filtered by an
attached input method — returns FALSE when k is not in pressed_keys. -/
theorem release_without_press_not_consumed (obs : Observers)
    (s : ControllerState) (ev : GdkEvent) (k st : Nat)
    (ht : ev.eventType = GdkEventType.keyRelease) (hv : ev.keyval = k)
    (hs : ev.state = some st) (hm : ev.isModifierKey = some false)
    (him : (s.imContext && obs.imFilterKeypress ev) = false)
    (hk : k ∉ s.pressedKeys) :
    (gtk_event_controller_key_handle_event obs s ev).handled = false := by
  rw [handle_release_eq obs s ev st ht hs hm him]
  simp [hv, hk]

/-- Witness for release_without_press_not_consumed: releasing 65 on a fresh
controller is not consumed. -/
theorem release_without_press_not_consumed_witness :
    (gtk_event_controller_key_handle_event obsAllFalse (startState false)
        (mkKeyEvent GdkEventType.keyRelease 65 false)).handled = false :=
  release_without_press_not_consumed obsAllFalse (startState false)
    (mkKeyEvent GdkEventType.keyRelease 65 false) 65 0 rfl rfl rfl rfl rfl
    (by decide)

/-- Counterexample to claim C7 as stated: an event whose state accessor
fails can still be consumed when an attached input method filters it,
because the filter (lines 108-113) runs before the accessor reads (lines
115-117); the call then returns TRUE, not FALSE. -/
theorem claimC7_counterexample :
    evStateFail.state = none ∧
      (gtk_event_controller_key_handle_event obsIMTrue (startState true)
          evStateFail).handled = true := by
  decide

/-- Claim C7 (amended): for a key press or release that an attached input
method does not consume, failure of the modifier-state accessor or of the
modifier-key-classification accessor makes the call return FALSE with no
signal emitted and the controller state, in particular pressed_keys,
unchanged — the call is atomic and raises no error. -/
theorem unreadable_event_not_consumed (obs : Observers) (s : ControllerState)
    (ev : GdkEvent)
    (ht : ev.eventType = GdkEventType.keyPress ∨
      ev.eventType = GdkEventType.keyRelease)
    (hfail : ev.state = none ∨ ev.isModifierKey = none)
    (him : (s.imContext && obs.imFilterKeypress ev) = false) :
    gtk_event_controller_key_handle_event obs s ev =
      { handled := false, controller := s, emitted := [] } := by
  rcases ht with h | h <;> rcases hfail with hf | hf <;>
    cases hst : ev.state <;>
      simp_all [gtk_event_controller_key_handle_event, h, hf, him, hst]

/-- Witness for unreadable_event_not_consumed at a concrete press with an
unreadable state and no input method attached. -/
theorem unreadable_event_not_consumed_witness :
    gtk_event_controller_key_handle_event obsAllFalse (startState false)
        evStateFail =
      { handled := false, controller := startState false, emitted := [] } :=
  unreadable_event_not_consumed obsAllFalse (startState false) evStateFail
    (Or.inl rfl) (Or.inl rfl) rfl

/-- Claim C10: a key press with keyval 0 that its KEY_PRESSED observer
consumes inserts 0 into pressed_keys, yet a subsequent key release of
keyval 0 returns FALSE, because g_hash_table_lookup returns the stored
value GUINT_TO_POINTER (0), which is NULL, so the != NULL membership test
cannot observe the entry stored for key 0. -/
theorem keyval_zero_lookup_gap (obs1 obs2 : Observers) (s : ControllerState)
    (ev1 ev2 : GdkEvent) (st1 st2 : Nat)
    (h1t : ev1.eventType = GdkEventType.keyPress) (h1v : ev1.keyval = 0)
    (h1s : ev1.state = some st1) (h1m : ev1.isModifierKey = some false)
    (h1im : (s.imContext && obs1.imFilterKeypress ev1) = false)
    (h1c : obs1.keyPressedHandler ev1.keyval ev1.keycode st1 = true)
    (h2t : ev2.eventType = GdkEventType.keyRelease) (h2v : ev2.keyval = 0)
    (h2s : ev2.state = some st2) (h2m : ev2.isModifierKey = some false)
    (h2im : (s.imContext && obs2.imFilterKeypress ev2) = false) :
    0 ∈ (gtk_event_controller_key_handle_event obs1 s ev1).controller.pressedKeys ∧
      (gtk_event_controller_key_handle_event obs2
          (gtk_event_controller_key_handle_event obs1 s ev1).controller
          ev2).handled = false := by
  rw [handle_press_eq obs1 s ev1 st1 h1t h1s h1m h1im, h1c]
  constructor
  · simp [h1v]
  · rw [handle_release_eq obs2 _ ev2 st2 h2t h2s h2m (by simpa using h2im)]
    simp [h2v]

/-- Witness for keyval_zero_lookup_gap on a fresh controller. -/
theorem keyval_zero_lookup_gap_witness :
    0 ∈ (gtk_event_controller_key_handle_event obsPressTrue (startState false)
          (mkKeyEvent GdkEventType.keyPress 0 false)).controller.pressedKeys ∧
      (gtk_event_controller_key_handle_event obsPressTrue
          (gtk_event_controller_key_handle_event obsPressTrue (startState false)
              (mkKeyEvent GdkEventType.keyPress 0 false)).controller
          (mkKeyEvent GdkEventType.keyRelease 0 false)).handled = false :=
  keyval_zero_lookup_gap obsPressTrue obsPressTrue (startState false)
    (mkKeyEvent GdkEventType.keyPress 0 false)
    (mkKeyEvent GdkEventType.keyRelease 0 false) 0 0 rfl rfl rfl rfl rfl rfl
    rfl rfl rfl rfl rfl

/-- Counterexample to claim C3 as stated: a press of keyval 0 whose
KEY_PRESSED notification is reported consumed (the signal is emitted and the
call returns TRUE), followed by a release of keyval 0, yields FALSE from the
release call instead of the claimed TRUE. -/
theorem claimC3_counterexample :
    (gtk_event_controller_key_handle_event obsPressTrue (startState false)
          (mkKeyEvent GdkEventType.keyPress 0 false)).handled = true ∧
      Signal.keyPressed 0 38 0 ∈
        (gtk_event_controller_key_handle_event obsPressTrue (startState false)
            (mkKeyEvent GdkEventType.keyPress 0 false)).emitted ∧
      (gtk_event_controller_key_handle_event obsPressTrue
          (gtk_event_controller_key_handle_event obsPressTrue (startState false)
              (mkKeyEvent GdkEventType.keyPress 0 false)).controller
          (mkKeyEvent GdkEventType.keyRelease 0 false)).handled = false := by
  decide

/-- Claim C3 (amended): for a press of keyval k ≠ 0 whose KEY_PRESSED
notification an observer reports consumed, followed by a release of the same
keyval k, where both events carry readable state, are not classified as pure
modifiers, and are not filtered by an attached input method, the release
call returns TRUE and k is absent from pressed_keys afterwards. -/
theorem press_release_sequence (obs1 obs2 : Observers) (s : ControllerState)
    (ev1 ev2 : GdkEvent) (k st1 st2 : Nat) (hk : k ≠ 0)
    (h1t : ev1.eventType = GdkEventType.keyPress) (h1v : ev1.keyval = k)
    (h1s : ev1.state = some st1) (h1m : ev1.isModifierKey = some false)
    (h1im : (s.imContext && obs1.imFilterKeypress ev1) = false)
    (h1c : obs1.keyPressedHandler ev1.keyval ev1.keycode st1 = true)
    (h2t : ev2.eventType = GdkEventType.keyRelease) (h2v : ev2.keyval = k)
    (h2s : ev2.state = some st2) (h2m : ev2.isModifierKey = some false)
    (h2im : (s.imContext && obs2.imFilterKeypress ev2) = false) :
    (gtk_event_controller_key_handle_event obs2
        (gtk_event_controller_key_handle_event obs1 s ev1).controller
        ev2).handled = true ∧
      k ∉ (gtk_event_controller_key_handle_event obs2
          (gtk_event_controller_key_handle_event obs1 s ev1).controller
          ev2).controller.pressedKeys := by
  rw [handle_press_eq obs1 s ev1 st1 h1t h1s h1m h1im, h1c]
  rw [handle_release_eq obs2 _ ev2 st2 h2t h2s h2m (by simpa using h2im)]
  constructor
  · simp [h1v, h2v, hk]
  · simp [h2v]

/-- Witness for press_release_sequence at the documented scenario: press of
keyval 65 with keycode 38 and state 0 consumed by the observer, then release
of 65 consumed with 65 gone from the set. -/
theorem press_release_sequence_witness :
    (gtk_event_controller_key_handle_event obsPressTrue
        (gtk_event_controller_key_handle_event obsPressTrue (startState false)
            (mkKeyEvent GdkEventType.keyPress 65 false)).controller
        (mkKeyEvent GdkEventType.keyRelease 65 false)).handled = true ∧
      65 ∉ (gtk_event_controller_key_handle_event obsPressTrue
          (gtk_event_controller_key_handle_event obsPressTrue (startState false)
              (mkKeyEvent GdkEventType.keyPress 65 false)).controller
          (mkKeyEvent GdkEventType.keyRelease 65 false)).controller.pressedKeys :=
  press_release_sequence obsPressTrue obsPressTrue (startState false)
    (mkKeyEvent GdkEventType.keyPress 65 false)
    (mkKeyEvent GdkEventType.keyRelease 65 false) 65 0 0 (by decide) rfl rfl
    rfl rfl rfl rfl rfl rfl rfl rfl rfl

/-- Counterexample to claim C1 as stated: press a pure modifier key with
keyval 5 whose MODIFIERS emission reports unhandled and whose KEY_PRESSED
emission reports handled (so 5 is inserted), then release the same key; the
modifier release returns early as consumed without touching pressed_keys, so
after the trace 5 is still in pressed_keys although a matching key-release
event has since been processed by handle_event. -/
theorem claimC1_counterexample :
    ¬ claimC1At false
        [(obsPressTrue, mkKeyEvent GdkEventType.keyPress 5 true),
          (obsPressTrue, mkKeyEvent GdkEventType.keyRelease 5 true)] 5 := by
  decide

/-- Claim C1 (amended): after every completed sequence of handle_event calls
from a fresh controller, pressed_keys contains exactly the keyvals k with
some call whose key-press of k was reported consumed through its KEY_PRESSED
notification and no later call whose key-release of k reached the release
branch (emitted KEY_RELEASED) — releases consumed early as pure modifier
releases or filtered by the input method do not remove k. -/
theorem pressed_keys_trace_characterization (im : Bool) (steps : List Step)
    (k : Nat) :
    k ∈ (runTrace (startState im) steps).pressedKeys ↔
      ∃ i : Fin (runLog (startState im) steps).length,
        pressConsumedViaKeyPressed ((runLog (startState im) steps).get i) k ∧
          ∀ j : Fin (runLog (startState im) steps).length,
            i < j → ¬ releaseReachedBranch ((runLog (startState im) steps).get j) k := by
  rw [mem_runTrace_iff]
  simp [startState]
